import Mathlib

/-!
Verification of the core of `nouveau_gpu_monitor` (architecture resolver and
temperature analyzer) against its specification.

Modelling conventions:
* Python strings that carry free-text input (chip family, device id) are
  modelled as `List Char`; internal constant tags are Lean `String` literals.
* Python floats are modelled as exact rationals `ℚ`; a second model `PFloat`
  adds the IEEE special values NaN, plus and minus infinity (with exact
  rational arithmetic on finite values) where a claim is about non-finite
  inputs.
* A Python function that can raise is modelled with `Except Unit`;
  `.error ()` stands for a raised exception.
* File writes, subprocess calls and GUI output are side effects outside the
  modelled state; external readings (fan RPM) become explicit inputs.
-/

/-- Profile record stored in `GPU_ARCHITECTURES` (nouveau_gpu_monitor.py
lines 49-63): codename, product series, max OpenGL, years, VA-API tier. -/
structure ArchProfile where
  name : String
  series : String
  opengl : String
  year : String
  va_api : String
deriving DecidableEq

/-- Entry of `CHIP_DATABASE` (lines 66-150): architecture tag and marketing
name for one chip model. -/
structure ChipEntry where
  arch : String
  name : String
deriving DecidableEq

/-- The static architecture knowledge base `GPU_ARCHITECTURES`
(nouveau_gpu_monitor.py lines 49-63), keyed by architecture tag. -/
def GPU_ARCHITECTURES : List (String × ArchProfile) :=
  [ ("NV40", ⟨"Curie", "GeForce 6/7", "2.1", "2004-2006", "None"⟩),
    ("NV50", ⟨"Tesla", "GeForce 8/9/GT 2xx", "3.3", "2006-2010", "Very limited"⟩),
    ("NVC0", ⟨"Fermi", "GeForce 4xx/5xx", "4.3", "2010-2012", "Partial"⟩),
    ("NVE0", ⟨"Kepler", "GeForce 6xx/7xx", "4.5", "2012-2014", "Good"⟩),
    ("GM100", ⟨"Maxwell", "GeForce 9xx/10xx", "4.6", "2014-2016", "Very good"⟩),
    ("GP100", ⟨"Pascal", "GeForce 10xx", "4.6", "2016-2018", "Very good"⟩),
    ("GV100", ⟨"Volta", "Titan V", "4.6", "2017", "Very good"⟩),
    ("TU100", ⟨"Turing", "GeForce 16xx/RTX 20xx", "4.6", "2018-2020", "Excellent"⟩),
    ("GA100", ⟨"Ampere", "RTX 30xx", "4.6", "2020-2022", "Excellent"⟩),
    ("AD100", ⟨"Ada Lovelace", "RTX 40xx", "4.6", "2022+", "Excellent"⟩),
    ("GB100", ⟨"Blackwell", "RTX 50xx", "4.6", "2024-2025", "Excellent"⟩),
    ("GB200", ⟨"Blackwell 2.0", "RTX 60xx", "4.6", "2025-2026", "Excellent"⟩),
    ("GH100", ⟨"Hopper", "H100/H200", "4.6", "2022-2024", "Excellent"⟩) ]

/-- The static chip catalog `CHIP_DATABASE` (nouveau_gpu_monitor.py lines
66-150), keyed by chip model string. -/
def CHIP_DATABASE : List (List Char × ChipEntry) :=
  [ ("G86".toList, ⟨"NV50", "GeForce 8400 GS/8500 GT"⟩),
    ("G84".toList, ⟨"NV50", "GeForce 8600 GT/GTS"⟩),
    ("G92".toList, ⟨"NV50", "GeForce 8800 GT/GTS/GTX"⟩),
    ("G94".toList, ⟨"NV50", "GeForce 9600 GT/GSO"⟩),
    ("G96".toList, ⟨"NV50", "GeForce 9400 GT/9500 GT"⟩),
    ("G98".toList, ⟨"NV50", "GeForce 8400 GS (renew)/9300 GS/9400 GT"⟩),
    ("GT200".toList, ⟨"NV50", "GeForce GTX 260/280/285"⟩),
    ("GT215".toList, ⟨"NV50", "GeForce GT 220/240"⟩),
    ("GT216".toList, ⟨"NV50", "GeForce GT 220"⟩),
    ("GT218".toList, ⟨"NV50", "GeForce GT 210/205"⟩),
    ("GF100".toList, ⟨"NVC0", "GeForce GTX 480/470/465"⟩),
    ("GF104".toList, ⟨"NVC0", "GeForce GTX 460"⟩),
    ("GF106".toList, ⟨"NVC0", "GeForce GTS 450"⟩),
    ("GF108".toList, ⟨"NVC0", "GeForce GT 430/440"⟩),
    ("GF110".toList, ⟨"NVC0", "GeForce GTX 580/570/560 Ti"⟩),
    ("GF114".toList, ⟨"NVC0", "GeForce GTX 560 Ti/550 Ti"⟩),
    ("GF116".toList, ⟨"NVC0", "GeForce GTX 550 Ti/560"⟩),
    ("GF119".toList, ⟨"NVC0", "GeForce GT 520/610"⟩),
    ("GK104".toList, ⟨"NVE0", "GeForce GTX 680/670/660 Ti"⟩),
    ("GK106".toList, ⟨"NVE0", "GeForce GTX 660/650 Ti"⟩),
    ("GK107".toList, ⟨"NVE0", "GeForce GT 640/650"⟩),
    ("GK110".toList, ⟨"NVE0", "GeForce GTX 780/770/TITAN"⟩),
    ("GK208".toList, ⟨"NVE0", "GeForce GT 730/710"⟩),
    ("GM107".toList, ⟨"GM100", "GeForce GTX 750/750 Ti"⟩),
    ("GM108".toList, ⟨"GM100", "GeForce GTX 950/960"⟩),
    ("GM200".toList, ⟨"GM100", "GeForce GTX 980/970/TITAN X"⟩),
    ("GM204".toList, ⟨"GM100", "GeForce GTX 980/970"⟩),
    ("GM206".toList, ⟨"GM100", "GeForce GTX 960/950"⟩),
    ("GP104".toList, ⟨"GP100", "GeForce GTX 1080/1070"⟩),
    ("GP106".toList, ⟨"GP100", "GeForce GTX 1060"⟩),
    ("GP107".toList, ⟨"GP100", "GeForce GTX 1050 Ti/1050"⟩),
    ("GP102".toList, ⟨"GP100", "GeForce GTX 1080 Ti/TITAN Xp"⟩),
    ("GV100".toList, ⟨"GV100", "TITAN V"⟩),
    ("TU102".toList, ⟨"TU100", "GeForce RTX 2080 Ti/TITAN RTX"⟩),
    ("TU104".toList, ⟨"TU100", "GeForce RTX 2080/2070/2060 Super"⟩),
    ("TU106".toList, ⟨"TU100", "GeForce RTX 2060/2060 Super"⟩),
    ("TU116".toList, ⟨"TU100", "GeForce GTX 1660 Ti/1660/1650 Super"⟩),
    ("TU117".toList, ⟨"TU100", "GeForce GTX 1650"⟩),
    ("GA102".toList, ⟨"GA100", "GeForce RTX 3090/3080 Ti/3080"⟩),
    ("GA103".toList, ⟨"GA100", "GeForce RTX 3070 Ti/3070"⟩),
    ("GA104".toList, ⟨"GA100", "GeForce RTX 3060 Ti/3060"⟩),
    ("GA106".toList, ⟨"GA100", "GeForce RTX 3050"⟩),
    ("GA107".toList, ⟨"GA100", "GeForce RTX 3050"⟩),
    ("AD102".toList, ⟨"AD100", "GeForce RTX 4090"⟩),
    ("AD103".toList, ⟨"AD100", "GeForce RTX 4080"⟩),
    ("AD104".toList, ⟨"AD100", "GeForce RTX 4070 Ti/4070"⟩),
    ("AD106".toList, ⟨"AD100", "GeForce RTX 4060 Ti/4060"⟩),
    ("AD107".toList, ⟨"AD100", "GeForce RTX 4050"⟩),
    ("GB102".toList, ⟨"GB100", "GeForce RTX 5090"⟩),
    ("GB103".toList, ⟨"GB100", "GeForce RTX 5080"⟩),
    ("GB104".toList, ⟨"GB100", "GeForce RTX 5070 Ti/5070"⟩),
    ("GB106".toList, ⟨"GB100", "GeForce RTX 5060 Ti/5060"⟩),
    ("GB107".toList, ⟨"GB100", "GeForce RTX 5050"⟩),
    ("GB202".toList, ⟨"GB200", "GeForce RTX 6090"⟩),
    ("GB203".toList, ⟨"GB200", "GeForce RTX 6080"⟩),
    ("GB204".toList, ⟨"GB200", "GeForce RTX 6070 Ti/6070"⟩),
    ("GB206".toList, ⟨"GB200", "GeForce RTX 6060 Ti/6060"⟩),
    ("GB207".toList, ⟨"GB200", "GeForce RTX 6050"⟩),
    ("GH100".toList, ⟨"GH100", "NVIDIA H100"⟩),
    ("GH200".toList, ⟨"GH100", "NVIDIA H200"⟩) ]

/-- Python `s.startswith(pre)` on strings modelled as char lists. -/
def startswith : List Char → List Char → Bool
  | _, [] => true
  | [], _ :: _ => false
  | c :: s, p :: ps => c == p && startswith s ps

/-- Characters stripped by Python `int(str, 16)` around the numeral
(ASCII whitespace; unicode whitespace is not modelled). -/
def pyWhitespace (c : Char) : Bool :=
  c == ' ' || c == '\t' || c == '\n' || c == '\x0d' || c == '\x0b' || c == '\x0c'

/-- Hexadecimal digit test, as accepted by Python `int(_, 16)`. -/
def isHexDigit (c : Char) : Bool :=
  ('0' ≤ c && c ≤ '9') || ('a' ≤ c && c ≤ 'f') || ('A' ≤ c && c ≤ 'F')

/-- Value of a hexadecimal digit. -/
def hexVal (c : Char) : Nat :=
  if '0' ≤ c && c ≤ '9' then c.toNat - '0'.toNat
  else if 'a' ≤ c && c ≤ 'f' then c.toNat - 'a'.toNat + 10
  else c.toNat - 'A'.toNat + 10

/-- Remaining digits of a base-16 numeral after at least one digit was read:
single underscores are allowed between digits only. -/
def hexTail : List Char → Nat → Option Nat
  | [], acc => some acc
  | ['_'], _ => none
  | '_' :: c :: rest, acc =>
      if isHexDigit c then hexTail rest (16 * acc + hexVal c) else none
  | c :: rest, acc =>
      if isHexDigit c then hexTail rest (16 * acc + hexVal c) else none

/-- A base-16 digit run must begin with a digit (no leading underscore). -/
def hexStart : List Char → Option Nat
  | [] => none
  | c :: rest => if isHexDigit c then hexTail rest (hexVal c) else none

/-- Digit part of Python `int(str, 16)` after sign handling: an optional
`0x`/`0X` prefix, after which one underscore may precede the first digit. -/
def hexBody : List Char → Option Nat
  | '0' :: x :: rest =>
      if x == 'x' || x == 'X' then
        match rest with
        | '_' :: r => hexStart r
        | _ => hexStart rest
      else hexStart ('0' :: x :: rest)
  | l => hexStart l

/-- Python `int(str, 16)`: strip ASCII whitespace, optional single sign,
optional `0x` prefix, then hexadecimal digits with single underscores
between digits; `none` models the `ValueError` raised otherwise. -/
def parseIntBase16 (l : List Char) : Option Int :=
  let l1 := (((l.dropWhile pyWhitespace).reverse.dropWhile pyWhitespace).reverse)
  match l1 with
  | '+' :: r => (hexBody r).map (fun n => (n : Int))
  | '-' :: r => (hexBody r).map (fun n => -(n : Int))
  | _ => (hexBody l1).map (fun n => (n : Int))

/-- Tier 2 of `detect_architecture` (nouveau_gpu_monitor.py lines 453-481):
the ordered chain of family string-prefix rules; `none` when no rule
matches and control falls through to the device-ID tier. -/
def archFromFamily (family : List Char) : Option String :=
  if startswith family "NV4".toList || startswith family "NV6".toList then some "NV40"
  else if startswith family "NV5".toList || startswith family "G8".toList
      || startswith family "G9".toList || startswith family "GT2".toList then some "NV50"
  else if startswith family "NVC".toList || startswith family "GF".toList then some "NVC0"
  else if startswith family "NVE".toList || startswith family "GK".toList then some "NVE0"
  else if startswith family "GM".toList then some "GM100"
  else if startswith family "GP".toList then some "GP100"
  else if startswith family "GV".toList then some "GV100"
  else if startswith family "TU".toList then some "TU100"
  else if startswith family "GA".toList then some "GA100"
  else if startswith family "AD".toList then some "AD100"
  else if startswith family "GB".toList then
    if 3 < family.length && family.getD 3 ' ' == '2' then some "GB200" else some "GB100"
  else if startswith family "GH".toList then some "GH100"
  else none

/-- The ten device IDs special-cased to the G98 chip before the general
ranges (lines 487-507). -/
def G98_SPECIALS : List (List Char) :=
  [ "06E0".toList, "06E1".toList, "06E2".toList, "06E3".toList, "06E4".toList,
    "06E5".toList, "06E6".toList, "06E7".toList, "06E8".toList, "06E9".toList ]

/-- Result chosen by the device-ID tier once `chip_num` has been computed
(lines 487-537): the ten G98 point exceptions, then the general ranges,
then the final `return 'Unknown'`. -/
def chip_range_arch (c : List Char) (chip_num : Int) : String :=
  if G98_SPECIALS.contains c then "NV50"
  else if 0x0040 ≤ chip_num ∧ chip_num < 0x0090 then "NV40"
  else if 0x0090 ≤ chip_num ∧ chip_num < 0x0200 then "NV50"
  else if 0x0600 ≤ chip_num ∧ chip_num < 0x0E00 then "NVC0"
  else if 0x0E00 ≤ chip_num ∧ chip_num < 0x1180 then "NVE0"
  else if 0x1180 ≤ chip_num ∧ chip_num < 0x1400 then "GM100"
  else if 0x1400 ≤ chip_num ∧ chip_num < 0x1C00 then "GP100"
  else if 0x1C00 ≤ chip_num ∧ chip_num < 0x1E00 then "GV100"
  else if 0x1E00 ≤ chip_num ∧ chip_num < 0x2200 then "TU100"
  else if 0x2200 ≤ chip_num ∧ chip_num < 0x2600 then "GA100"
  else if 0x2600 ≤ chip_num ∧ chip_num < 0x2800 then "AD100"
  else if 0x2800 ≤ chip_num ∧ chip_num < 0x2A00 then "GB100"
  else if 0x2A00 ≤ chip_num ∧ chip_num < 0x2C00 then "GB200"
  else if 0x2C00 ≤ chip_num then "GH100"
  else "Unknown"

/-- Tier 3 of `detect_architecture` (lines 483-537): numeric device-ID
fallback. A falsy (`None`/empty) `chip_id` skips the tier; the literal
string `Unknown` is parsed as 0; any other string goes through
`int(chip_id, 16)`, whose `ValueError` is modelled as `.error ()`. -/
def chip_fallback : Option (List Char) → Except Unit String
  | none => .ok "Unknown"
  | some c =>
    if c.isEmpty then .ok "Unknown"
    else
      match (if c == "Unknown".toList then some 0 else parseIntBase16 c) with
      | none => .error ()
      | some chip_num => .ok (chip_range_arch c chip_num)

/-- `detect_architecture` (nouveau_gpu_monitor.py lines 444-537): catalog
lookup, then the prefix chain, then the device-ID fallback; the final
`return 'Unknown'` lives in `chip_fallback`. -/
def detect_architecture (family : List Char) (chip_id : Option (List Char)) :
    Except Unit String :=
  match CHIP_DATABASE.lookup family with
  | some entry => .ok entry.arch
  | none =>
    match archFromFamily family with
    | some tag => .ok tag
    | none => chip_fallback chip_id

/-- Sentinel profile returned by `get_arch_info` for an unknown tag
(lines 543-549). -/
def UNKNOWN_PROFILE : ArchProfile :=
  ⟨"Unknown", "Unknown", "Unknown", "Unknown", "Unknown"⟩

/-- `get_arch_info` (lines 539-549): profile lookup with the sentinel
fallback. -/
def get_arch_info (tag : String) : ArchProfile :=
  (GPU_ARCHITECTURES.lookup tag).getD UNKNOWN_PROFILE

/-- Python `deque(maxlen := cap).append x` on a deque holding `l`: append on
the right, then discard from the left down to `cap` elements. -/
def boundedAppend {α : Type} (cap : Nat) (l : List α) (x : α) : List α :=
  (l ++ [x]).drop (l.length + 1 - cap)

/-- Per-process record created in `log_temp_change` (lines 190-198): name,
first-seen timestamp, temperature at first sighting, bounded recent
history (`deque(maxlen=100)`). -/
structure ProcLink where
  name : String
  start_time : ℚ
  temp_at_start : ℚ
  temp_history : List (ℚ × ℚ)
deriving DecidableEq

/-- Anomaly event dictionary built by `_log_anomaly` (lines 200-216). -/
structure AnomalyEvent where
  timestamp : ℚ
  rate : ℚ
  processes : List (Nat × String)
deriving DecidableEq

/-- State of `EnhancedLogger` (lines 167-174). `cap` is the `maxlen` the
`temp_history` deque was constructed with (1000 in `__init__`); the log
file path is irrelevant to the modelled behaviour and omitted. -/
structure LoggerState where
  cap : Nat
  temp_history : List (ℚ × ℚ)
  process_temp_map : List (Nat × ProcLink)
  anomaly_threshold : ℚ
  anomaly_events : List AnomalyEvent
  cooling_mode : String
deriving DecidableEq

/-- `EnhancedLogger.__init__` (lines 168-174). -/
def initLogger : LoggerState :=
  { cap := 1000, temp_history := [], process_temp_map := [],
    anomaly_threshold := 5, anomaly_events := [], cooling_mode := "auto" }

/-- `_log_anomaly` (lines 200-216): build the event, append it to
`anomaly_events` and return it; the write to the log file is a side
effect outside the modelled state. -/
def log_anomaly (events : List AnomalyEvent) (timestamp rate : ℚ)
    (processes : List (Nat × String)) : List AnomalyEvent × AnomalyEvent :=
  let event : AnomalyEvent := ⟨timestamp, rate, processes⟩
  (events ++ [event], event)

/-- Point update of the process map (Python `self.process_temp_map[pid]`). -/
def updateProc (m : List (Nat × ProcLink)) (pid : Nat) (f : ProcLink → ProcLink) :
    List (Nat × ProcLink) :=
  m.map (fun p => if p.1 == pid then (p.1, f p.2) else p)

/-- The `for pid, proc_info in processes.items()` loop of `log_temp_change`
(lines 190-198): create an unseen process's record, then append the
current sample to its bounded history. -/
def recordProcesses (timestamp temp : ℚ) (processes : List (Nat × String))
    (m : List (Nat × ProcLink)) : List (Nat × ProcLink) :=
  processes.foldl
    (fun m p =>
      let m1 := if (m.lookup p.1).isSome then m
                else m ++ [(p.1, ⟨p.2, timestamp, temp, []⟩)]
      updateProc m1 p.1
        (fun link =>
          { link with
            temp_history := boundedAppend 100 link.temp_history (timestamp, temp) }))
    m

/-- `log_temp_change` (lines 176-198): append the sample, detect a rate
anomaly against the previous sample (`temp_history[-2]`, read after the
append), record the active processes. The second component is the Python
return value: the function body has no `return` statement, so it is
always `None`, even when `_log_anomaly` created an event. -/
def log_temp_change (s : LoggerState) (timestamp temp : ℚ)
    (processes : List (Nat × String)) : LoggerState × Option AnomalyEvent :=
  let hist := boundedAppend s.cap s.temp_history (timestamp, temp)
  let events :=
    if 2 ≤ hist.length then
      match hist[hist.length - 2]? with
      | some (prev_time, prev_temp) =>
        let time_diff := timestamp - prev_time
        let temp_diff := temp - prev_temp
        if 0 < time_diff ∧ s.anomaly_threshold < |temp_diff / time_diff| then
          (log_anomaly s.anomaly_events timestamp (temp_diff / time_diff) processes).1
        else s.anomaly_events
      | none => s.anomaly_events
    else s.anomaly_events
  let m := recordProcesses timestamp temp processes s.process_temp_map
  ({ s with temp_history := hist, anomaly_events := events, process_temp_map := m },
   none)

/-- Feed a stream of `(timestamp, temperature)` samples through
`log_temp_change` with a fixed set of active processes. -/
def runSamples (s : LoggerState) (samples : List (ℚ × ℚ))
    (processes : List (Nat × String)) : LoggerState :=
  samples.foldl (fun s x => (log_temp_change s x.1 x.2 processes).1) s

/-- Python slice `l[-n:]`: the last `n` elements (all of them when the list
is shorter). -/
def lastN {α : Type} (n : Nat) (l : List α) : List α :=
  l.drop (l.length - n)

/-- Trend fragment of `update_temperature_analysis_display`
(nouveau_gpu_monitor.py lines 2158-2176). The fragment only runs inside
`if len(self.temp_history) > 10`; it classifies the last 5 readings with
`all(recent[i] <= recent[i+1] for i in range(4))` and its mirror. The
display strings "Temperature trending UP" / "trending DOWN" /
"Temperature stable" are rendered here as "rising" / "falling" /
"stable"; `none` means no trend text is produced at all. -/
def temp_trend_display (temp_history : List ℚ) : Option String :=
  if 10 < temp_history.length then
    if 5 ≤ temp_history.length then
      let recent := lastN 5 temp_history
      if (List.range 4).all (fun i => decide (recent.getD i 0 ≤ recent.getD (i + 1) 0)) then
        some "rising"
      else if (List.range 4).all (fun i => decide (recent.getD (i + 1) 0 ≤ recent.getD i 0)) then
        some "falling"
      else some "stable"
    else none
  else none

/-- `analyze_temperature_trend` (nouveau_monitor_complete.py lines
2190-2205): with fewer than 5 samples report "stable"; otherwise compare
the average of the last 5 samples with the average of samples `[-10:-5]`
(or of the first 2 of the last 5 when the history is shorter than 10),
using a 5-degree dead band. -/
def analyze_temperature_trend (temp_history : List ℚ) : String :=
  if temp_history.length < 5 then "stable"
  else
    let recent := lastN 5 temp_history
    let avg_recent := recent.sum / (recent.length : ℚ)
    let older :=
      if 10 ≤ temp_history.length then
        (temp_history.drop (temp_history.length - 10)).take 5
      else recent.take (recent.length / 2)
    let avg_older := older.sum / (older.length : ℚ)
    if avg_older + 5 < avg_recent then "rising"
    else if avg_recent < avg_older - 5 then "falling"
    else "stable"

/-- `get_cooling_mode` (nouveau_gpu_monitor.py lines 578-616). The fan
speed parsed out of the `sensors` subprocess output is modelled as the
input `fan_speed` (`none` when no fan line was found or the subprocess
failed, in which case the `except` path also ends in the final
`return 'passive'`); `temp_history` is the GUI class's list of recent
temperature readings. -/
def get_cooling_mode (configured : String) (fan_speed : Option Nat)
    (temp_history : List ℚ) : String :=
  if configured == "passive" then "passive"
  else if configured == "active" then "active"
  else
    match fan_speed with
    | some rpm => if 0 < rpm then "active" else "passive"
    | none =>
      match temp_history.getLast? with
      | some current_temp => if 70 < current_temp then "active" else "passive"
      | none => "passive"

/-- Python float model used for the claims about non-finite inputs: NaN,
the two infinities, and exact rationals for finite values (rounding of
finite IEEE arithmetic is not modelled; the analyzer claims depend only
on comparisons whose outcome rounding cannot change). -/
inductive PFloat where
  | nan
  | inf
  | ninf
  | fin (q : ℚ)
deriving DecidableEq

/-- IEEE subtraction on the float model. -/
def PFloat.sub : PFloat → PFloat → PFloat
  | nan, _ => nan
  | _, nan => nan
  | inf, inf => nan
  | inf, _ => inf
  | ninf, ninf => nan
  | ninf, _ => ninf
  | fin _, inf => ninf
  | fin _, ninf => inf
  | fin a, fin b => fin (a - b)

/-- Division of a float by a finite nonzero rational; the analyzer divides
only by a strictly positive `time_diff`. -/
def PFloat.divq : PFloat → ℚ → PFloat
  | nan, _ => nan
  | inf, t => if 0 ≤ t then inf else ninf
  | ninf, t => if 0 ≤ t then ninf else inf
  | fin a, t => fin (a / t)

/-- IEEE absolute value on the float model. -/
def PFloat.abs : PFloat → PFloat
  | nan => nan
  | inf => inf
  | ninf => inf
  | fin a => fin |a|

/-- IEEE `>`: every comparison involving NaN is false. -/
def PFloat.gtb : PFloat → PFloat → Bool
  | nan, _ => false
  | _, nan => false
  | inf, inf => false
  | inf, _ => true
  | ninf, _ => false
  | fin _, inf => false
  | fin _, ninf => true
  | fin a, fin b => decide (b < a)

/-- `ProcLink` with temperatures in the float model. -/
structure ProcLinkF where
  name : String
  start_time : ℚ
  temp_at_start : PFloat
  temp_history : List (ℚ × PFloat)
deriving DecidableEq

/-- `AnomalyEvent` with the rate in the float model. -/
structure AnomalyEventF where
  timestamp : ℚ
  rate : PFloat
  processes : List (Nat × String)
deriving DecidableEq

/-- `EnhancedLogger` state with temperatures in the float model; timestamps
come from `datetime` and are always finite, so they stay rational. -/
structure LoggerStateF where
  cap : Nat
  temp_history : List (ℚ × PFloat)
  process_temp_map : List (Nat × ProcLinkF)
  anomaly_threshold : ℚ
  anomaly_events : List AnomalyEventF
  cooling_mode : String
deriving DecidableEq

/-- Point update of the float-model process map. -/
def updateProcF (m : List (Nat × ProcLinkF)) (pid : Nat)
    (f : ProcLinkF → ProcLinkF) : List (Nat × ProcLinkF) :=
  m.map (fun p => if p.1 == pid then (p.1, f p.2) else p)

/-- Float-model version of the process loop of `log_temp_change`. -/
def recordProcessesF (timestamp : ℚ) (temp : PFloat)
    (processes : List (Nat × String)) (m : List (Nat × ProcLinkF)) :
    List (Nat × ProcLinkF) :=
  processes.foldl
    (fun m p =>
      let m1 := if (m.lookup p.1).isSome then m
                else m ++ [(p.1, ⟨p.2, timestamp, temp, []⟩)]
      updateProcF m1 p.1
        (fun link =>
          { link with
            temp_history := boundedAppend 100 link.temp_history (timestamp, temp) }))
    m

/-- `log_temp_change` (lines 176-198) over the float model of temperatures:
identical control flow, with `abs(temp_diff / time_diff) >
self.anomaly_threshold` evaluated by the IEEE comparison (false whenever
NaN is involved). -/
def log_temp_changeF (s : LoggerStateF) (timestamp : ℚ) (temp : PFloat)
    (processes : List (Nat × String)) : LoggerStateF × Option AnomalyEventF :=
  let hist := boundedAppend s.cap s.temp_history (timestamp, temp)
  let events :=
    if 2 ≤ hist.length then
      match hist[hist.length - 2]? with
      | some (prev_time, prev_temp) =>
        let time_diff := timestamp - prev_time
        let temp_diff := PFloat.sub temp prev_temp
        if 0 < time_diff ∧
            PFloat.gtb (PFloat.abs (PFloat.divq temp_diff time_diff))
              (PFloat.fin s.anomaly_threshold) = true then
          s.anomaly_events ++ [⟨timestamp, PFloat.divq temp_diff time_diff, processes⟩]
        else s.anomaly_events
      | none => s.anomaly_events
    else s.anomaly_events
  let m := recordProcessesF timestamp temp processes s.process_temp_map
  ({ s with temp_history := hist, anomaly_events := events, process_temp_map := m },
   none)

/-! Helper lemmas. -/

/-- A value produced by an association-list lookup is one of the stored
values. -/
theorem lookup_mem_snd {α β : Type} [BEq α] {l : List (α × β)} {a : α} {b : β}
    (h : l.lookup a = some b) : b ∈ l.map Prod.snd := by
  induction l with
  | nil => simp [List.lookup] at h
  | cons p t ih =>
    obtain ⟨k, v⟩ := p
    rw [List.lookup_cons] at h
    cases hak : (a == k) with
    | true =>
      rw [hak] at h
      simp only [] at h
      injection h with h
      rw [List.map_cons, ← h]
      exact List.mem_cons_self _ _
    | false =>
      rw [hak] at h
      simp only [] at h
      exact List.mem_cons_of_mem _ (ih h)

/-- Every prefix rule of `archFromFamily` yields a key of
`GPU_ARCHITECTURES`. -/
theorem archFromFamily_known (f : List Char) (t : String)
    (h : archFromFamily f = some t) : (GPU_ARCHITECTURES.lookup t).isSome = true := by
  unfold archFromFamily at h
  by_cases h1 : (startswith f "NV4".toList || startswith f "NV6".toList) = true
  · rw [if_pos h1] at h; injection h with h; subst h; decide
  · rw [if_neg h1] at h
    by_cases h2 : (startswith f "NV5".toList || startswith f "G8".toList || startswith f "G9".toList || startswith f "GT2".toList) = true
    · rw [if_pos h2] at h; injection h with h; subst h; decide
    · rw [if_neg h2] at h
      by_cases h3 : (startswith f "NVC".toList || startswith f "GF".toList) = true
      · rw [if_pos h3] at h; injection h with h; subst h; decide
      · rw [if_neg h3] at h
        by_cases h4 : (startswith f "NVE".toList || startswith f "GK".toList) = true
        · rw [if_pos h4] at h; injection h with h; subst h; decide
        · rw [if_neg h4] at h
          by_cases h5 : startswith f "GM".toList = true
          · rw [if_pos h5] at h; injection h with h; subst h; decide
          · rw [if_neg h5] at h
            by_cases h6 : startswith f "GP".toList = true
            · rw [if_pos h6] at h; injection h with h; subst h; decide
            · rw [if_neg h6] at h
              by_cases h7 : startswith f "GV".toList = true
              · rw [if_pos h7] at h; injection h with h; subst h; decide
              · rw [if_neg h7] at h
                by_cases h8 : startswith f "TU".toList = true
                · rw [if_pos h8] at h; injection h with h; subst h; decide
                · rw [if_neg h8] at h
                  by_cases h9 : startswith f "GA".toList = true
                  · rw [if_pos h9] at h; injection h with h; subst h; decide
                  · rw [if_neg h9] at h
                    by_cases h10 : startswith f "AD".toList = true
                    · rw [if_pos h10] at h; injection h with h; subst h; decide
                    · rw [if_neg h10] at h
                      by_cases h11 : startswith f "GB".toList = true
                      · rw [if_pos h11] at h
                        by_cases h11b : (decide (3 < f.length) && f.getD 3 ' ' == '2') = true
                        · rw [if_pos h11b] at h; injection h with h; subst h; decide
                        · rw [if_neg h11b] at h; injection h with h; subst h; decide
                      · rw [if_neg h11] at h
                        by_cases h12 : startswith f "GH".toList = true
                        · rw [if_pos h12] at h; injection h with h; subst h; decide
                        · rw [if_neg h12] at h; exact Option.noConfusion h
/-- Every tag produced by the device-ID range tier is `Unknown` or a key
of `GPU_ARCHITECTURES`. -/
theorem chip_range_arch_known (c : List Char) (n : Int) :
    chip_range_arch c n = "Unknown" ∨
      (GPU_ARCHITECTURES.lookup (chip_range_arch c n)).isSome = true := by
  unfold chip_range_arch
  by_cases h1 : G98_SPECIALS.contains c = true
  · rw [if_pos h1]; right; decide
  · rw [if_neg h1]
    by_cases h2 : 0x0040 ≤ n ∧ n < 0x0090
    · rw [if_pos h2]; right; decide
    · rw [if_neg h2]
      by_cases h3 : 0x0090 ≤ n ∧ n < 0x0200
      · rw [if_pos h3]; right; decide
      · rw [if_neg h3]
        by_cases h4 : 0x0600 ≤ n ∧ n < 0x0E00
        · rw [if_pos h4]; right; decide
        · rw [if_neg h4]
          by_cases h5 : 0x0E00 ≤ n ∧ n < 0x1180
          · rw [if_pos h5]; right; decide
          · rw [if_neg h5]
            by_cases h6 : 0x1180 ≤ n ∧ n < 0x1400
            · rw [if_pos h6]; right; decide
            · rw [if_neg h6]
              by_cases h7 : 0x1400 ≤ n ∧ n < 0x1C00
              · rw [if_pos h7]; right; decide
              · rw [if_neg h7]
                by_cases h8 : 0x1C00 ≤ n ∧ n < 0x1E00
                · rw [if_pos h8]; right; decide
                · rw [if_neg h8]
                  by_cases h9 : 0x1E00 ≤ n ∧ n < 0x2200
                  · rw [if_pos h9]; right; decide
                  · rw [if_neg h9]
                    by_cases h10 : 0x2200 ≤ n ∧ n < 0x2600
                    · rw [if_pos h10]; right; decide
                    · rw [if_neg h10]
                      by_cases h11 : 0x2600 ≤ n ∧ n < 0x2800
                      · rw [if_pos h11]; right; decide
                      · rw [if_neg h11]
                        by_cases h12 : 0x2800 ≤ n ∧ n < 0x2A00
                        · rw [if_pos h12]; right; decide
                        · rw [if_neg h12]
                          by_cases h13 : 0x2A00 ≤ n ∧ n < 0x2C00
                          · rw [if_pos h13]; right; decide
                          · rw [if_neg h13]
                            by_cases h14 : 0x2C00 ≤ n
                            · rw [if_pos h14]; right; decide
                            · rw [if_neg h14]
                              left; rfl
/-- Every tag produced by the whole device-ID tier is `Unknown` or a key of
`GPU_ARCHITECTURES`. -/
theorem chip_fallback_known (chip_id : Option (List Char)) (t : String)
    (h : chip_fallback chip_id = .ok t) :
    t = "Unknown" ∨ (GPU_ARCHITECTURES.lookup t).isSome = true := by
  rcases chip_id with _ | c
  · rw [chip_fallback] at h
    injection h with h
    exact Or.inl h.symm
  · rw [chip_fallback] at h
    split at h
    · injection h with h
      exact Or.inl h.symm
    · split at h
      · exact Except.noConfusion h
      · injection h with h
        rw [← h]
        exact chip_range_arch_known _ _

/-! Claims about the architecture resolver. -/

/-- Claim C1: the resolver applies its three tiers in strict priority order
with first match winning — a family present in the chip catalog resolves to
the catalog entry's architecture for every device ID (so neither the
prefix rules nor the device-ID ranges are consulted), and on catalog miss a
matching prefix rule decides the result for every device ID (so the
device-ID tier is consulted only when no prefix rule matches). -/
theorem C1_catalog_precedence :
    (∀ (family : List Char) (entry : ChipEntry) (chip_id : Option (List Char)),
      CHIP_DATABASE.lookup family = some entry →
      detect_architecture family chip_id = .ok entry.arch) ∧
    (∀ (family : List Char) (tag : String) (chip_id : Option (List Char)),
      CHIP_DATABASE.lookup family = none → archFromFamily family = some tag →
      detect_architecture family chip_id = .ok tag) := by
  constructor
  · intro family entry chip_id h
    unfold detect_architecture
    rw [h]
  · intro family tag chip_id h1 h2
    unfold detect_architecture
    rw [h1, h2]

/-- Witness for C1: `GB203` is in the catalog with tag `GB200`; the resolver
returns `GB200` even with device ID `06E0`, whose fallback tag would be
`NV50` (and whose prefix rule would give `GB100`); on catalog miss,
`GM999` resolves via the `GM` prefix rule to `GM100` despite the same
device ID. -/
theorem C1_catalog_precedence_witness :
    CHIP_DATABASE.lookup "GB203".toList = some ⟨"GB200", "GeForce RTX 6080"⟩ ∧
    detect_architecture "GB203".toList (some "06E0".toList) = .ok "GB200" ∧
    CHIP_DATABASE.lookup "GM999".toList = none ∧
    archFromFamily "GM999".toList = some "GM100" ∧
    detect_architecture "GM999".toList (some "06E0".toList) = .ok "GM100" :=
  ⟨by decide, C1_catalog_precedence.1 _ ⟨"GB200", "GeForce RTX 6080"⟩ _ (by decide),
   by decide, by decide,
   C1_catalog_precedence.2 _ "GM100" _ (by decide) (by decide)⟩

/-- The resolver succeeds whenever the device-ID tier would succeed,
whatever the family string. -/
theorem detect_isOk_of_fallback (family : List Char) (chip_id : Option (List Char))
    (h : (chip_fallback chip_id).isOk = true) :
    (detect_architecture family chip_id).isOk = true := by
  unfold detect_architecture
  split
  · rfl
  · split
    · rfl
    · exact h

/-- The device-ID tier succeeds on every device ID accepted by
`int(_, 16)`. -/
theorem chip_fallback_isOk_of_parse (c : List Char) (n : Int)
    (h : parseIntBase16 c = some n) : (chip_fallback (some c)).isOk = true := by
  rw [chip_fallback]
  split
  · rfl
  · rcases hc : (if c == "Unknown".toList then some (0 : Int) else parseIntBase16 c)
      with _ | m
    · exfalso
      by_cases hu : (c == "Unknown".toList) = true
      · rw [if_pos hu] at hc
        exact Option.noConfusion hc
      · rw [if_neg hu, h] at hc
        exact Option.noConfusion hc
    · rfl

/-- Claim C2 (amended): resolution terminates with some tag for every input
whose device ID is absent, empty, the literal `Unknown`, or any string
accepted by `int(_, 16)`; an empty or literal `Unknown` family string
matches no catalog key and no prefix rule, so it falls through to the
device-ID tier, and with no device ID the result is the `Unknown` tag.
However, a present, non-empty device ID that is not the literal `Unknown`
and is rejected by `int(_, 16)` raises `ValueError` instead of being
treated as absent. -/
theorem C2_resolution_totality :
    (∀ family : List Char, (detect_architecture family none).isOk = true) ∧
    (∀ family : List Char, (detect_architecture family (some [])).isOk = true) ∧
    (∀ family : List Char,
      (detect_architecture family (some "Unknown".toList)).isOk = true) ∧
    (∀ (family c : List Char) (n : Int), parseIntBase16 c = some n →
      (detect_architecture family (some c)).isOk = true) ∧
    (∀ chip_id : Option (List Char),
      detect_architecture "".toList chip_id = chip_fallback chip_id ∧
      detect_architecture "Unknown".toList chip_id = chip_fallback chip_id) ∧
    detect_architecture "Unknown".toList none = .ok "Unknown" ∧
    detect_architecture "".toList none = .ok "Unknown" := by
  refine ⟨?_, ?_, ?_, ?_, ?_, rfl, rfl⟩
  · intro family
    exact detect_isOk_of_fallback _ _ rfl
  · intro family
    exact detect_isOk_of_fallback _ _ rfl
  · intro family
    exact detect_isOk_of_fallback _ _ (by decide)
  · intro family c n h
    exact detect_isOk_of_fallback _ _ (chip_fallback_isOk_of_parse c n h)
  · intro chip_id
    constructor
    · unfold detect_architecture
      rw [show CHIP_DATABASE.lookup "".toList = none from by decide,
          show archFromFamily "".toList = none from by decide]
    · unfold detect_architecture
      rw [show CHIP_DATABASE.lookup "Unknown".toList = none from by decide,
          show archFromFamily "Unknown".toList = none from by decide]

/-- Witness for C2 (amended): the parse-dependent clause applied at family
`Unknown` and the well-formed device ID `06E0`. -/
theorem C2_resolution_totality_witness :
    parseIntBase16 "06E0".toList = some 0x06E0 ∧
    (detect_architecture "Unknown".toList (some "06E0".toList)).isOk = true :=
  ⟨by decide, C2_resolution_totality.2.2.2.1 "Unknown".toList "06E0".toList 0x06E0 (by decide)⟩

/-- Claim C2 counterexample: the non-hexadecimal device ID `ZZZZ` is not
treated as absent — `int(chip_id, 16)` raises `ValueError`, modelled as
`.error ()`, instead of resolving to the `Unknown` tag. -/
theorem C2_counterexample :
    detect_architecture "Unknown".toList (some "ZZZZ".toList) = .error () := rfl

/-- Claim C8: for every family string that starts with `GB` and misses the
chip catalog, the prefix tier resolves to `GB200` exactly when the
character at index 3 is `'2'` and to `GB100` otherwise (including when
the string has no index 3); in particular `GB203` resolves to `GB200`
and `GB106` to `GB100`. -/
theorem C8_gb_disambiguation :
    (∀ (rest : List Char) (chip_id : Option (List Char)),
      CHIP_DATABASE.lookup ('G' :: 'B' :: rest) = none →
      detect_architecture ('G' :: 'B' :: rest) chip_id =
        .ok (if ('G' :: 'B' :: rest)[3]? = some '2' then "GB200" else "GB100")) ∧
    detect_architecture "GB203".toList none = .ok "GB200" ∧
    detect_architecture "GB106".toList none = .ok "GB100" := by
  refine ⟨?_, rfl, rfl⟩
  intro rest chip_id hdb
  have harch : archFromFamily ('G' :: 'B' :: rest) =
      some (if ('G' :: 'B' :: rest)[3]? = some '2' then "GB200" else "GB100") := by
    unfold archFromFamily
    simp [startswith]
    rcases rest with _ | ⟨a, _ | ⟨b, rs⟩⟩
    · simp
    · simp
    · by_cases hb : b = '2' <;> simp [hb, List.getD]
  exact C1_catalog_precedence.2 _ _ _ hdb harch

/-- Witness for C8: the family `GB2222` misses the catalog; its character at
index 3 is `'2'`, so the prefix tier resolves it to `GB200`. -/
theorem C8_gb_disambiguation_witness :
    CHIP_DATABASE.lookup ('G' :: 'B' :: "2222".toList) = none ∧
    detect_architecture ('G' :: 'B' :: "2222".toList) none =
      .ok (if ('G' :: 'B' :: "2222".toList)[3]? = some '2' then "GB200" else "GB100") :=
  ⟨by decide, C8_gb_disambiguation.1 "2222".toList none (by decide)⟩

/-- Claim C10: every tag the resolver can return is either `Unknown` or a
key of the static profile table, and profile lookup on a resolved
non-Unknown tag never falls back to the sentinel profile. -/
theorem C10_resolved_tags_known (family : List Char) (chip_id : Option (List Char))
    (t : String) (h : detect_architecture family chip_id = .ok t) :
    (t = "Unknown" ∨ (GPU_ARCHITECTURES.lookup t).isSome = true) ∧
    (t ≠ "Unknown" → get_arch_info t ≠ UNKNOWN_PROFILE) := by
  have hmain : t = "Unknown" ∨ (GPU_ARCHITECTURES.lookup t).isSome = true := by
    unfold detect_architecture at h
    rcases hdb : CHIP_DATABASE.lookup family with _ | entry
    · rw [hdb] at h
      rcases hpf : archFromFamily family with _ | tag
      · rw [hpf] at h
        exact chip_fallback_known _ _ h
      · rw [hpf] at h
        injection h with h
        right
        rw [← h]
        exact archFromFamily_known _ _ hpf
    · rw [hdb] at h
      injection h with h
      right
      rw [← h]
      have hmem := lookup_mem_snd hdb
      have hall : ∀ e ∈ CHIP_DATABASE.map Prod.snd,
          (GPU_ARCHITECTURES.lookup e.arch).isSome = true := by decide
      exact hall entry hmem
  refine ⟨hmain, fun hne => ?_⟩
  rcases hmain with rfl | hs
  · exact absurd rfl hne
  · rcases Option.isSome_iff_exists.mp hs with ⟨p, hp⟩
    have hmem := lookup_mem_snd hp
    rw [get_arch_info, hp, Option.getD_some]
    have hall : ∀ q ∈ GPU_ARCHITECTURES.map Prod.snd, q ≠ UNKNOWN_PROFILE := by decide
    exact hall p hmem

/-- Witness for C10: the resolver maps `GK104` to `NVE0`, which is a key of
the profile table, and its profile is not the sentinel. -/
theorem C10_resolved_tags_known_witness :
    detect_architecture "GK104".toList none = .ok "NVE0" ∧
    ("NVE0" = "Unknown" ∨ (GPU_ARCHITECTURES.lookup "NVE0").isSome = true) ∧
    ("NVE0" ≠ "Unknown" → get_arch_info "NVE0" ≠ UNKNOWN_PROFILE) :=
  ⟨rfl, (C10_resolved_tags_known "GK104".toList none "NVE0" rfl).1,
   (C10_resolved_tags_known "GK104".toList none "NVE0" rfl).2⟩

/-! Claims about the temperature analyzer. -/

/-- An append to a bounded deque keeps the last `cap` elements. -/
theorem boundedAppend_eq_lastN {α : Type} (cap : Nat) (l : List α) (x : α) :
    boundedAppend cap l x = lastN cap (l ++ [x]) := by
  simp [boundedAppend, lastN]

/-- A bounded deque never exceeds its capacity. -/
theorem length_boundedAppend_le {α : Type} (cap : Nat) (l : List α) (x : α) :
    (boundedAppend cap l x).length ≤ cap := by
  simp [boundedAppend]
  omega

/-- Taking the last `cap` elements before appending more does not change the
last `cap` elements of the whole. -/
theorem lastN_append_lastN {α : Type} (cap : Nat) (ys rest : List α) :
    lastN cap (lastN cap ys ++ rest) = lastN cap (ys ++ rest) := by
  unfold lastN
  rcases le_or_lt ys.length cap with hle | hlt
  · rw [Nat.sub_eq_zero_of_le hle, List.drop_zero]
  · rw [List.drop_append_eq_append_drop, List.drop_append_eq_append_drop, List.drop_drop]
    simp only [List.length_append, List.length_drop]
    congr 1
    · congr 1
      omega
    · congr 1
      omega

/-- Folding bounded appends over a stream retains exactly the last `cap`
elements. -/
theorem foldl_boundedAppend {α : Type} (cap : Nat) (xs l : List α)
    (h : l.length ≤ cap) :
    xs.foldl (boundedAppend cap) l = lastN cap (l ++ xs) := by
  induction xs generalizing l with
  | nil => simp [lastN, Nat.sub_eq_zero_of_le h]
  | cons x rest ih =>
    rw [List.foldl_cons, ih _ (length_boundedAppend_le cap l x),
        boundedAppend_eq_lastN, lastN_append_lastN]
    simp

/-- `log_temp_change` does not change the history capacity. -/
theorem log_temp_change_cap (s : LoggerState) (t v : ℚ) (ps : List (Nat × String)) :
    (log_temp_change s t v ps).1.cap = s.cap := rfl

/-- `log_temp_change` appends exactly the new sample to the bounded
history. -/
theorem log_temp_change_temp_history (s : LoggerState) (t v : ℚ)
    (ps : List (Nat × String)) :
    (log_temp_change s t v ps).1.temp_history =
      boundedAppend s.cap s.temp_history (t, v) := rfl

/-- `log_temp_change` preserves the configured anomaly threshold. -/
theorem log_temp_change_threshold (s : LoggerState) (t v : ℚ)
    (ps : List (Nat × String)) :
    (log_temp_change s t v ps).1.anomaly_threshold = s.anomaly_threshold := rfl

/-- The anomaly log after `log_temp_change`, spelled out. -/
theorem log_temp_change_events (s : LoggerState) (t v : ℚ)
    (ps : List (Nat × String)) :
    (log_temp_change s t v ps).1.anomaly_events =
      (if 2 ≤ (boundedAppend s.cap s.temp_history (t, v)).length then
        match (boundedAppend s.cap s.temp_history (t, v))[
            (boundedAppend s.cap s.temp_history (t, v)).length - 2]? with
        | some (prev_time, prev_temp) =>
          if 0 < t - prev_time ∧
              s.anomaly_threshold < |(v - prev_temp) / (t - prev_time)| then
            s.anomaly_events ++ [⟨t, (v - prev_temp) / (t - prev_time), ps⟩]
          else s.anomaly_events
        | none => s.anomaly_events
      else s.anomaly_events) := rfl

/-- The history of a run of samples is the fold of bounded appends. -/
theorem runSamples_temp_history (samples : List (ℚ × ℚ)) (s : LoggerState)
    (ps : List (Nat × String)) :
    (runSamples s samples ps).temp_history =
      samples.foldl (boundedAppend s.cap) s.temp_history ∧
    (runSamples s samples ps).cap = s.cap := by
  induction samples generalizing s with
  | nil => exact ⟨rfl, rfl⟩
  | cons x rest ih =>
    have h1 := ih (log_temp_change s x.1 x.2 ps).1
    constructor
    · show (runSamples (log_temp_change s x.1 x.2 ps).1 rest ps).temp_history = _
      rw [h1.1, log_temp_change_cap, log_temp_change_temp_history, List.foldl_cons]
    · show (runSamples (log_temp_change s x.1 x.2 ps).1 rest ps).cap = _
      rw [h1.2, log_temp_change_cap]

/-- Claim C6: the temperature history is a bounded FIFO — for an analyzer
of capacity C started empty, after inserting C+5 samples the history
holds exactly the C most recent insertions in insertion order (the 5
oldest evicted oldest-first). -/
theorem C6_history_fifo (s : LoggerState) (samples : List (ℚ × ℚ))
    (ps : List (Nat × String)) (h0 : s.temp_history = [])
    (hlen : samples.length = s.cap + 5) :
    (runSamples s samples ps).temp_history = samples.drop 5 ∧
    (runSamples s samples ps).temp_history.length = s.cap := by
  have h1 : (runSamples s samples ps).temp_history = lastN s.cap samples := by
    rw [(runSamples_temp_history samples s ps).1, h0,
        foldl_boundedAppend s.cap samples [] (by simp)]
    simp
  constructor
  · rw [h1]
    unfold lastN
    congr 1
    omega
  · rw [h1]
    unfold lastN
    rw [List.length_drop]
    omega

/-- Witness for C6: capacity 3, eight samples; the history retains the last
three in order. -/
theorem C6_history_fifo_witness :
    (({ initLogger with cap := 3 } : LoggerState).temp_history = []) ∧
    ([((0 : ℚ), (60 : ℚ)), (1, 61), (2, 62), (3, 63), (4, 64), (5, 65), (6, 66),
        (7, 67)].length = ({ initLogger with cap := 3 } : LoggerState).cap + 5) ∧
    (runSamples { initLogger with cap := 3 }
        [((0 : ℚ), (60 : ℚ)), (1, 61), (2, 62), (3, 63), (4, 64), (5, 65), (6, 66),
          (7, 67)] []).temp_history =
      [((0 : ℚ), (60 : ℚ)), (1, 61), (2, 62), (3, 63), (4, 64), (5, 65), (6, 66),
          (7, 67)].drop 5 ∧
    (runSamples { initLogger with cap := 3 }
        [((0 : ℚ), (60 : ℚ)), (1, 61), (2, 62), (3, 63), (4, 64), (5, 65), (6, 66),
          (7, 67)] []).temp_history.length =
      ({ initLogger with cap := 3 } : LoggerState).cap :=
  ⟨rfl, rfl,
   (C6_history_fifo { initLogger with cap := 3 } _ [] rfl (by rfl)).1,
   (C6_history_fifo { initLogger with cap := 3 } _ [] rfl (by rfl)).2⟩

/-- After a bounded append, the second-to-last element is the previous last
element, whenever at least two elements remain. -/
theorem boundedAppend_prev {α : Type} (cap : Nat) (l : List α) (x a : α)
    (hl : l.getLast? = some a) (h2 : 2 ≤ (boundedAppend cap l x).length) :
    (boundedAppend cap l x)[(boundedAppend cap l x).length - 2]? = some a := by
  have hne : l ≠ [] := by rintro rfl; simp at hl
  have hpos : 0 < l.length := List.length_pos.mpr hne
  have hlen : (boundedAppend cap l x).length = l.length + 1 - (l.length + 1 - cap) := by
    simp [boundedAppend]
  rw [hlen] at h2
  conv_lhs => rw [hlen]
  unfold boundedAppend
  rw [List.getElem?_drop]
  have hidx : l.length + 1 - cap + (l.length + 1 - (l.length + 1 - cap) - 2) =
      l.length - 1 := by omega
  rw [hidx, List.getElem?_append, if_pos (by omega), ← List.getLast?_eq_getElem?]
  exact hl

/-- Claim C4: when the elapsed time between the new sample and its
predecessor is zero or negative, the rate computation is skipped — no
anomaly event is registered and nothing is returned (the guard
short-circuits before the division, so no division error can occur). -/
theorem C4_nonpositive_elapsed (s : LoggerState) (t v pt pv : ℚ)
    (ps : List (Nat × String)) (hl : s.temp_history.getLast? = some (pt, pv))
    (hle : t - pt ≤ 0) :
    (log_temp_change s t v ps).1.anomaly_events = s.anomaly_events ∧
    (log_temp_change s t v ps).2 = none := by
  refine ⟨?_, rfl⟩
  rw [log_temp_change_events]
  by_cases h2 : 2 ≤ (boundedAppend s.cap s.temp_history (t, v)).length
  · rw [if_pos h2, boundedAppend_prev s.cap s.temp_history (t, v) (pt, pv) hl h2]
    show (if 0 < t - pt ∧ s.anomaly_threshold < |(v - pv) / (t - pt)| then
        s.anomaly_events ++ [⟨t, (v - pv) / (t - pt), ps⟩]
      else s.anomaly_events) = s.anomaly_events
    rw [if_neg]
    rintro ⟨h0, -⟩
    linarith
  · rw [if_neg h2]

/-- Witness for C4: two samples sharing timestamp 1 — no anomaly is
registered and nothing is returned. -/
theorem C4_nonpositive_elapsed_witness :
    (({ initLogger with temp_history := [(1, 60)] } : LoggerState
        ).temp_history.getLast? = some (1, 60)) ∧
    ((1 : ℚ) - 1 ≤ 0) ∧
    (log_temp_change { initLogger with temp_history := [(1, 60)] } 1 90
        []).1.anomaly_events = [] ∧
    (log_temp_change { initLogger with temp_history := [(1, 60)] } 1 90 []).2 = none :=
  ⟨rfl, by norm_num,
   (C4_nonpositive_elapsed { initLogger with temp_history := [(1, 60)] } 1 90 1 60 []
      rfl (by norm_num)).1,
   (C4_nonpositive_elapsed { initLogger with temp_history := [(1, 60)] } 1 90 1 60 []
      rfl (by norm_num)).2⟩

/-- Claim C3 (amended): with a previous sample present and capacity at least
2, `log_temp_change` creates and appends an anomaly event to the anomaly
log exactly when the elapsed time is positive and the absolute rate
strictly exceeds the threshold (so a rate exactly equal to the threshold
produces no event while 5.1 °C over 1 s with threshold 5 does); however,
the function itself always returns `None` — the event created by
`_log_anomaly` is appended but never returned. -/
theorem C3_anomaly_threshold (s : LoggerState) (t v pt pv : ℚ)
    (ps : List (Nat × String)) (hl : s.temp_history.getLast? = some (pt, pv))
    (hcap : 2 ≤ s.cap) :
    (log_temp_change s t v ps).2 = none ∧
    (0 < t - pt ∧ s.anomaly_threshold < |(v - pv) / (t - pt)| →
      (log_temp_change s t v ps).1.anomaly_events =
        s.anomaly_events ++ [⟨t, (v - pv) / (t - pt), ps⟩]) ∧
    (¬(0 < t - pt ∧ s.anomaly_threshold < |(v - pv) / (t - pt)|) →
      (log_temp_change s t v ps).1.anomaly_events = s.anomaly_events) := by
  have hne : s.temp_history ≠ [] := by
    intro h
    rw [h] at hl
    simp at hl
  have hpos : 0 < s.temp_history.length := List.length_pos.mpr hne
  have h2 : 2 ≤ (boundedAppend s.cap s.temp_history (t, v)).length := by
    simp only [boundedAppend, List.length_drop, List.length_append, List.length_cons,
      List.length_nil]
    omega
  refine ⟨rfl, ?_, ?_⟩ <;> intro hcond <;>
    rw [log_temp_change_events, if_pos h2,
      boundedAppend_prev s.cap s.temp_history (t, v) (pt, pv) hl h2] <;>
    show (if 0 < t - pt ∧ s.anomaly_threshold < |(v - pv) / (t - pt)| then
        s.anomaly_events ++ [⟨t, (v - pv) / (t - pt), ps⟩]
      else s.anomaly_events) = _
  · rw [if_pos hcond]
  · rw [if_neg hcond]

/-- Witness for C3 (amended): threshold 5, consecutive samples 1 s apart —
a 5.0 °C jump appends no event, a 5.1 °C jump appends exactly one, and in
both cases the call returns `None`. -/
theorem C3_anomaly_threshold_witness :
    (({ initLogger with temp_history := [(0, 60)] } : LoggerState
        ).temp_history.getLast? = some (0, 60)) ∧
    (log_temp_change { initLogger with temp_history := [(0, 60)] } 1 65
        []).1.anomaly_events = [] ∧
    (log_temp_change { initLogger with temp_history := [(0, 60)] } 1 (651 / 10)
        []).1.anomaly_events =
      [] ++ [⟨1, ((651 : ℚ) / 10 - 60) / (1 - 0), []⟩] ∧
    (log_temp_change { initLogger with temp_history := [(0, 60)] } 1 (651 / 10)
        []).2 = none := by
  refine ⟨rfl, ?_, ?_, ?_⟩
  · exact (C3_anomaly_threshold { initLogger with temp_history := [(0, 60)] } 1 65 0 60
      [] rfl (by norm_num [initLogger])).2.2 (by norm_num [initLogger])
  · exact (C3_anomaly_threshold { initLogger with temp_history := [(0, 60)] } 1 (651 / 10)
      0 60 [] rfl (by norm_num [initLogger])).2.1 (by norm_num [initLogger, abs_of_pos])
  · exact (C3_anomaly_threshold { initLogger with temp_history := [(0, 60)] } 1 (651 / 10)
      0 60 [] rfl (by norm_num [initLogger])).1

/-- Claim C3 counterexample: at threshold 5, samples 5.1 °C apart over 1 s
make `log_temp_change` create and append an anomaly event, yet the call
still returns `None` — the newly created event is not returned. -/
theorem C3_counterexample :
    (log_temp_change { initLogger with temp_history := [(0, 60)] } 1 (651 / 10)
        []).2 = none ∧
    (log_temp_change { initLogger with temp_history := [(0, 60)] } 1 (651 / 10)
        []).1.anomaly_events.length = 1 := by
  constructor
  · rfl
  · rw [(C3_anomaly_threshold { initLogger with temp_history := [(0, 60)] } 1 (651 / 10)
      0 60 [] rfl (by norm_num [initLogger])).2.1 (by norm_num [initLogger, abs_of_pos])]
    rfl

/-- The generator check `all(recent[i] <= recent[i+1] for i in range(4))`
on a 5-element list is exactly pairwise non-decrease. -/
theorem all_range4_le_iff (l : List ℚ) (hlen : l.length = 5) :
    ((List.range 4).all (fun i => decide (l.getD i 0 ≤ l.getD (i + 1) 0)) = true) ↔
      l.Chain' (· ≤ ·) := by
  rcases l with _ | ⟨a, _ | ⟨b, _ | ⟨c, _ | ⟨d, _ | ⟨e, _ | ⟨f, t⟩⟩⟩⟩⟩⟩ <;>
    simp_all [List.range_succ, List.getD]

/-- The mirrored generator check on a 5-element list is exactly pairwise
non-increase. -/
theorem all_range4_ge_iff (l : List ℚ) (hlen : l.length = 5) :
    ((List.range 4).all (fun i => decide (l.getD (i + 1) 0 ≤ l.getD i 0)) = true) ↔
      l.Chain' (· ≥ ·) := by
  rcases l with _ | ⟨a, _ | ⟨b, _ | ⟨c, _ | ⟨d, _ | ⟨e, _ | ⟨f, t⟩⟩⟩⟩⟩⟩ <;>
    simp_all [List.range_succ, List.getD, ge_iff_le]

/-- Claim C5 (amended): the display trend runs only when the history holds
more than 10 samples — it then classifies the most recent 5 as "rising"
when pairwise non-decreasing, "falling" when pairwise non-increasing (and
not non-decreasing), and "stable" otherwise; with 10 or fewer samples it
reports no trend at all. The separate `analyze_temperature_trend` of the
complete revision reports "stable" for fewer than 5 samples (it compares
5-sample averages rather than monotonicity). -/
theorem C5_trend (h : List ℚ) :
    (h.length ≤ 10 → temp_trend_display h = none) ∧
    (10 < h.length →
      ((lastN 5 h).Chain' (· ≤ ·) → temp_trend_display h = some "rising") ∧
      (¬(lastN 5 h).Chain' (· ≤ ·) → (lastN 5 h).Chain' (· ≥ ·) →
        temp_trend_display h = some "falling") ∧
      (¬(lastN 5 h).Chain' (· ≤ ·) → ¬(lastN 5 h).Chain' (· ≥ ·) →
        temp_trend_display h = some "stable")) ∧
    (h.length < 5 → analyze_temperature_trend h = "stable") := by
  refine ⟨?_, ?_, ?_⟩
  · intro hle
    simp only [temp_trend_display]
    rw [if_neg (by omega)]
  · intro hgt
    have hlen5 : (lastN 5 h).length = 5 := by
      simp only [lastN, List.length_drop]
      omega
    refine ⟨?_, ?_, ?_⟩
    · intro hc
      simp only [temp_trend_display]
      rw [if_pos hgt, if_pos (by omega),
        if_pos ((all_range4_le_iff _ hlen5).mpr hc)]
    · intro hnc hc2
      simp only [temp_trend_display]
      rw [if_pos hgt, if_pos (by omega),
        if_neg (fun hx => hnc ((all_range4_le_iff _ hlen5).mp hx)),
        if_pos ((all_range4_ge_iff _ hlen5).mpr hc2)]
    · intro hnc hnc2
      simp only [temp_trend_display]
      rw [if_pos hgt, if_pos (by omega),
        if_neg (fun hx => hnc ((all_range4_le_iff _ hlen5).mp hx)),
        if_neg (fun hx => hnc2 ((all_range4_ge_iff _ hlen5).mp hx))]
  · intro hlt
    simp only [analyze_temperature_trend]
    rw [if_pos hlt]

/-- Witness for C5 (amended): eleven samples ending in five non-decreasing
readings display "rising"; the averaging trend of the complete revision
reports "stable" on an empty history. -/
theorem C5_trend_witness :
    (10 < ([1, 1, 1, 1, 1, 1, 40, 42, 44, 46, 48] : List ℚ).length) ∧
    temp_trend_display [1, 1, 1, 1, 1, 1, 40, 42, 44, 46, 48] = some "rising" ∧
    (([] : List ℚ).length < 5) ∧
    analyze_temperature_trend [] = "stable" :=
  ⟨by norm_num,
   ((C5_trend [1, 1, 1, 1, 1, 1, 40, 42, 44, 46, 48]).2.1 (by norm_num)).1
     (by simp [lastN]; norm_num),
   by norm_num,
   (C5_trend []).2.2 (by norm_num)⟩

/-- Claim C5 counterexample: for exactly 5 non-decreasing samples
40,42,44,46,48, the claim demands "rising", but the display trend
fragment emits no trend (history not longer than 10 samples) and
`analyze_temperature_trend` reports "stable" (its 5-sample average, 44,
does not exceed the average of the first two samples, 41, by more than
5). -/
theorem C5_counterexample :
    temp_trend_display [40, 42, 44, 46, 48] = none ∧
    analyze_temperature_trend [40, 42, 44, 46, 48] = "stable" := by
  constructor
  · rfl
  · simp only [analyze_temperature_trend, lastN]
    norm_num

/-- Claim C7: cooling-mode estimation follows the fixed decision chain — an
explicitly configured `passive` or `active` is returned unchanged for
every fan reading and history (in particular `active` with fan RPM 0);
otherwise with a fan sample the result is `active` exactly when RPM > 0;
otherwise with a non-empty history the result is `active` exactly when
the most recent sample exceeds 70 °C; otherwise `passive`. -/
theorem C7_cooling_mode :
    (∀ (fan : Option Nat) (h : List ℚ),
      get_cooling_mode "passive" fan h = "passive") ∧
    (∀ (fan : Option Nat) (h : List ℚ),
      get_cooling_mode "active" fan h = "active") ∧
    (∀ (rpm : Nat) (h : List ℚ),
      get_cooling_mode "auto" (some rpm) h =
        if 0 < rpm then "active" else "passive") ∧
    (∀ (h : List ℚ) (x : ℚ),
      get_cooling_mode "auto" none (h ++ [x]) =
        if 70 < x then "active" else "passive") ∧
    get_cooling_mode "auto" none [] = "passive" := by
  refine ⟨fun fan h => rfl, fun fan h => rfl, fun rpm h => rfl, fun h x => ?_, rfl⟩
  simp only [get_cooling_mode, List.getLast?_concat]
  rfl

/-- The anomaly log after `log_temp_changeF`, spelled out. -/
theorem log_temp_changeF_events (s : LoggerStateF) (t : ℚ) (v : PFloat)
    (ps : List (Nat × String)) :
    (log_temp_changeF s t v ps).1.anomaly_events =
      (if 2 ≤ (boundedAppend s.cap s.temp_history (t, v)).length then
        match (boundedAppend s.cap s.temp_history (t, v))[
            (boundedAppend s.cap s.temp_history (t, v)).length - 2]? with
        | some (prev_time, prev_temp) =>
          if 0 < t - prev_time ∧
              PFloat.gtb (PFloat.abs (PFloat.divq (PFloat.sub v prev_temp) (t - prev_time)))
                (PFloat.fin s.anomaly_threshold) = true then
            s.anomaly_events ++
              [⟨t, PFloat.divq (PFloat.sub v prev_temp) (t - prev_time), ps⟩]
          else s.anomaly_events
        | none => s.anomaly_events
      else s.anomaly_events) := rfl

/-- Claim C9 (amended): no analyzer operation raises for any numeric input,
including NaN and negative temperatures, and a NaN temperature produces
no anomaly event and returns nothing (every IEEE comparison involving NaN
is false), though the sample is still inserted into the history; an
infinite temperature, however, is not treated as "no anomaly": it can
produce an anomaly event with infinite rate. -/
theorem C9_nan_no_anomaly (s : LoggerStateF) (t : ℚ) (ps : List (Nat × String)) :
    (log_temp_changeF s t PFloat.nan ps).2 = none ∧
    (log_temp_changeF s t PFloat.nan ps).1.anomaly_events = s.anomaly_events ∧
    (log_temp_changeF s t PFloat.nan ps).1.temp_history =
      boundedAppend s.cap s.temp_history (t, PFloat.nan) := by
  refine ⟨rfl, ?_, rfl⟩
  rw [log_temp_changeF_events]
  by_cases h2 : 2 ≤ (boundedAppend s.cap s.temp_history (t, PFloat.nan)).length
  · rw [if_pos h2]
    rcases hget : (boundedAppend s.cap s.temp_history (t, PFloat.nan))[
        (boundedAppend s.cap s.temp_history (t, PFloat.nan)).length - 2]? with _ | prev
    · rfl
    · obtain ⟨pt, pv⟩ := prev
      show (if 0 < t - pt ∧
          PFloat.gtb (PFloat.abs (PFloat.divq (PFloat.sub PFloat.nan pv) (t - pt)))
            (PFloat.fin s.anomaly_threshold) = true then
          s.anomaly_events ++
            [⟨t, PFloat.divq (PFloat.sub PFloat.nan pv) (t - pt), ps⟩]
        else s.anomaly_events) = s.anomaly_events
      rw [if_neg]
      rintro ⟨-, hgt⟩
      cases pv <;> simp [PFloat.sub, PFloat.divq, PFloat.abs, PFloat.gtb] at hgt
  · rw [if_neg h2]

/-- Claim C9 counterexample: a non-finite temperature is not treated as "no
anomaly": jumping from 60 °C to +∞ over 1 s appends an anomaly event with
rate +∞ (IEEE: `abs(inf) > 5.0` is true), so only NaN is skipped. -/
theorem C9_counterexample :
    (log_temp_changeF
        { cap := 1000, temp_history := [(0, PFloat.fin 60)], process_temp_map := [],
          anomaly_threshold := 5, anomaly_events := [], cooling_mode := "auto" }
        1 PFloat.inf []).1.anomaly_events = [⟨1, PFloat.inf, []⟩] := by
  simp only [log_temp_changeF, boundedAppend]
  norm_num [PFloat.sub, PFloat.divq, PFloat.abs, PFloat.gtb]

/-! Concrete evaluations of the embedded resolver and parser, matching the
behaviour of the Python source on the same inputs. -/

example : detect_architecture "GK104".toList none = .ok "NVE0" := rfl
example : detect_architecture "GB205".toList none = .ok "GB100" := rfl
example : detect_architecture "Unknown".toList (some "06E0".toList) = .ok "NV50" := rfl
example : detect_architecture "Unknown".toList (some "Unknown".toList) = .ok "Unknown" := rfl
example : parseIntBase16 "0x_1f".toList = some 31 := by decide
example : parseIntBase16 "-1A".toList = some (-26) := by decide
example : parseIntBase16 " 1A ".toList = some 26 := by decide
example : parseIntBase16 "1__0".toList = none := by decide
